import Mathlib

/-!
Verification development for the Azure Blob private-storage adapters:
the signed-URL backend (`api/server/services/Files/AzureBlobPrivate/crud.js`)
and the workload-identity backend (the unnamed sibling file).

The JavaScript module is embedded shallowly:
* machine time is an epoch-millisecond counter (`Nat`), with the minting
  machine's local clock modelled as a fixed-offset zone so that the JS
  `Date` minute arithmetic is exact;
* the Azure SDK's `generateBlobSASQueryParameters` output is kept as the
  record of signed fields (the query string is a rendering of exactly
  those fields), and the SDK's documented SAS-scoping semantics is the
  predicate `SASGrant.allowsBlob`;
* effectful collaborators (the remote fetch, the PUT upload, the backend
  delete primitive, `fs.stat`) are passed in as explicit outcomes, and the
  chain of backend calls an operation performs is returned as an event
  trace, so that ordering and non-invocation facts are statable.
-/

namespace AzureBlobPrivate

/-- A JavaScript `Error` object as the module observes it: a message and the
optional `statusCode` field that Azure storage errors carry. -/
structure JsError where
  message : String
  statusCode : Option Nat := none
deriving Repr, DecidableEq

/-- The environment configuration of the signed-URL backend:
`AZURE_PRIVATE_STORAGE_ACCOUNT_NAME`, `AZURE_PRIVATE_STORAGE_ACCOUNT_KEY`,
and `AZURE_PRIVATE_CONTAINER_NAME` (defaulting to `"files"`). -/
structure Config where
  accountName : String
  accountKey : String
  containerName : String := "files"
deriving Repr, DecidableEq

/-- `const defaultBasePath = 'images'` in both backends. -/
def defaultBasePath : String := "images"

/-- JS truthiness of a possibly-absent string: `undefined` and the empty
string are falsy, every other string is truthy. -/
def jsTruthy : Option String → Bool
  | none => false
  | some s => !s.isEmpty

/-- Split a character list at the first occurrence of the (non-empty)
separator: `some (before, after)` when the separator occurs, scanning left
to right, `none` otherwise.  This is the single step of JS
`String.prototype.split`. -/
def breakOnSub (sep : List Char) : List Char → Option (List Char × List Char)
  | [] => none
  | c :: rest =>
    if sep.isPrefixOf (c :: rest) then some ([], (c :: rest).drop sep.length)
    else
      match breakOnSub sep rest with
      | none => none
      | some (pre, post) => some (c :: pre, post)

/-- Element `[1]` of JS `s.split(sep)` for a non-empty separator: the part
of `s` between the end of the first occurrence of `sep` and the start of
the next non-overlapping occurrence (or the end of the string), and
`undefined` (`none`) when `sep` does not occur. -/
def jsSplitSecond (sep l : List Char) : Option (List Char) :=
  match breakOnSub sep l with
  | none => none
  | some (_, post) =>
    match breakOnSub sep post with
    | none => some post
    | some (mid, _) => some mid

/-- JS `String.prototype.includes`: substring containment (the empty string
is contained in every string). -/
def jsIncludes (s sub : String) : Bool :=
  sub.isEmpty || (breakOnSub sub.data s.data).isSome

/-- Node `path.basename` for POSIX paths that do not end in a slash: the
part of the path after the last `/`. -/
def pathBasename (p : String) : String :=
  ⟨(p.data.reverse.takeWhile (fun c => c ≠ '/')).reverse⟩

/-- JS `Date.prototype.getMinutes` on an epoch-millisecond clock in a
fixed-offset zone: the minute-of-hour component. -/
def jsGetMinutes (t : Nat) : Nat := t / 60000 % 60

/-- JS `Date.prototype.setMinutes m`: replace the minute component by `m`,
normalising overflow into the hour, keeping seconds and milliseconds; it
returns the new epoch value. -/
def jsSetMinutes (t m : Nat) : Nat := t - jsGetMinutes t * 60000 + m * 60000

/-- The expiry computed by both minting functions:
`new Date(currentDateTime.setMinutes(currentDateTime.getMinutes() + duration))`. -/
def sasExpiry (now duration : Nat) : Nat :=
  jsSetMinutes now (jsGetMinutes now + duration)

/-- Azure `BlobSASPermissions`: a fresh object has every permission bit
false; the module only ever sets `read` or `write`. -/
structure BlobSASPermissions where
  read : Bool := false
  write : Bool := false
deriving Repr, DecidableEq

/-- The signed fields of a SAS token, i.e. the information carried by the
query string that `generateBlobSASQueryParameters` returns.  The SDK signs
exactly the fields present in the model object handed to it; `crud.js`
passes `containerName`, `permissions` and `expiresOn`, and no blob name, so
`blobName` is `none` for every token the module mints. -/
structure SASGrant where
  containerName : String
  blobName : Option String := none
  permissions : BlobSASPermissions
  expiresOn : Nat
deriving Repr, DecidableEq

/-- Azure's documented SAS-scoping semantics: a token authorises an
operation on a blob iff the blob lives in the signed container and, when
the token names a blob (a resource-"b" SAS), it is that very blob; a token
that names only a container (a resource-"c" SAS) is valid for every blob
of that container. -/
def SASGrant.allowsBlob (g : SASGrant) (container blob : String) : Bool :=
  container == g.containerName &&
    (match g.blobName with
      | some b => blob == b
      | none => true)

/-- `createSASReadString` (crud.js lines 54-69): sets only the `read`
permission bit, expiry `now + duration` minutes (default 5), and signs a
model carrying the container name and no blob name. -/
def createSASReadString (_key _accountName containerName : String)
    (now : Nat) (duration : Nat := 5) : SASGrant :=
  { containerName := containerName
    blobName := none
    permissions := { read := true }
    expiresOn := sasExpiry now duration }

/-- The account/container/blob coordinates that a block-blob client URL
addresses. -/
structure BlobLocation where
  accountName : String
  containerName : String
  blobName : String
deriving Repr, DecidableEq

/-- `containerClient.getBlockBlobClient(blobName).url`: the singleton
`containerClient` is bound to `AZURE_PRIVATE_CONTAINER_NAME` (crud.js line
41), so the URL always addresses the configured container. -/
def containerClientBlockBlob (cfg : Config) (blobName : String) : BlobLocation :=
  { accountName := cfg.accountName
    containerName := cfg.containerName
    blobName := blobName }

/-- A blob URL together with the SAS query string appended to it. -/
structure SignedUrl where
  location : BlobLocation
  sas : SASGrant
deriving Repr, DecidableEq

/-- `createSASWriteString` (crud.js lines 80-98): sets only the `write`
permission bit, expiry `now + duration` minutes (default 5), signs a model
carrying the `containerName` argument and no blob name, and glues the
query string onto the singleton container client's URL for `blobName`. -/
def createSASWriteString (cfg : Config) (blobName : String)
    (_key _accountName containerName : String)
    (now : Nat) (duration : Nat := 5) : SignedUrl :=
  { location := containerClientBlockBlob cfg blobName
    sas :=
      { containerName := containerName
        blobName := none
        permissions := { write := true }
        expiresOn := sasExpiry now duration } }

/-- `getSignedDownloadUrl` (crud.js lines 109-113): the singleton container
client's URL for `blobName`, plus a fresh read SAS for `containerName`. -/
def getSignedDownloadUrl (cfg : Config)
    (blobName key accountName containerName : String)
    (now : Nat) (duration : Nat := 5) : SignedUrl :=
  { location := containerClientBlockBlob cfg blobName
    sas := createSASReadString key accountName containerName now duration }

/-- The blob path computed by `saveBufferToAzureBlobPrivate` and
`uploadFileToAzureBlobPrivate`: the template literal
`basePath + "/" + userId + "/" + fileName`. -/
def saveBlobPath (basePath userId fileName : String) : String :=
  basePath ++ "/" ++ userId ++ "/" ++ fileName

/-- The blob path computed by `getAzureBlobPrivateURL`:
`userId ? basePath/userId/fileName : basePath/fileName`, where the
conditional is JS truthiness of `userId`. -/
def resolveBlobPath (basePath : String) (userId : Option String)
    (fileName : String) : String :=
  if jsTruthy userId then
    basePath ++ "/" ++ userId.getD "" ++ "/" ++ fileName
  else
    basePath ++ "/" ++ fileName

/-- C1 as stated is false: the quantification covers a falsy `userId`
(the empty string), where the save side interpolates it into the template
literal, giving `images//a.png`, while the resolve side takes the
no-`userId` branch, giving `images/a.png`. -/
theorem C1_counterexample :
    saveBlobPath "images" "" "a.png" ≠ resolveBlobPath "images" (some "") "a.png" := by
  decide

/-- C1 amended: for every combination of userId, fileName and basePath in
which the userId is present (truthy, i.e. non-empty), the blob path
computed by the save operation and the blob path computed by the
resolve-URL operation are identical strings. -/
theorem C1_paths_agree (basePath userId fileName : String) (h : userId ≠ "") :
    saveBlobPath basePath userId fileName
      = resolveBlobPath basePath (some userId) fileName := by
  have hne : userId.isEmpty = false := by
    cases he : userId.isEmpty
    · rfl
    · exact absurd ((String.isEmpty_iff userId).mp he) h
  simp [saveBlobPath, resolveBlobPath, jsTruthy, hne]

theorem C1_paths_agree_witness :
    saveBlobPath "images" "u1" "a.png"
      = resolveBlobPath "images" (some "u1") "a.png" :=
  C1_paths_agree "images" "u1" "a.png" (by decide)

/-- C3: a grant minted by `createSASReadString` carries exactly the read
permission and no write permission; a grant minted by
`createSASWriteString` carries exactly the write permission and no read
permission; neither minting operation ever combines the two. -/
theorem C3_single_purpose_grants (cfg : Config)
    (blobName key accountName containerName : String) (now duration : Nat) :
    (createSASReadString key accountName containerName now duration).permissions
        = { read := true, write := false } ∧
      (createSASWriteString cfg blobName key accountName containerName now
            duration).sas.permissions
        = { read := false, write := true } := by
  exact ⟨rfl, rfl⟩

/-- C5: the expiry timestamp embedded in a grant minted by
`createSASReadString` or `createSASWriteString` equals the minting time
plus exactly the requested duration in minutes (`duration * 60000`
milliseconds): the JS `setMinutes(getMinutes() + duration)` dance
normalises minute overflow into the hour, so it is an exact shift. -/
theorem C5_expiry_exact (cfg : Config)
    (blobName key accountName containerName : String) (now duration : Nat) :
    (createSASReadString key accountName containerName now duration).expiresOn
        = now + duration * 60000 ∧
      (createSASWriteString cfg blobName key accountName containerName now
            duration).sas.expiresOn
        = now + duration * 60000 := by
  have h : sasExpiry now duration = now + duration * 60000 := by
    unfold sasExpiry jsSetMinutes jsGetMinutes
    omega
  exact ⟨h, h⟩

/-- C2: a token minted by the module is NOT scoped to an individual blob.
Evaluated at a concrete failing input: the read token minted while
resolving `images/u1/a.png`, and the write token minted for the blob path
`images/u1/a.png`, both authorise the different blob `images/u2/b.png` of
the same container, because the signed model carries no blob name
(a container-level SAS). -/
theorem C2_grant_not_blob_scoped :
    (createSASReadString "key" "acct" "files" 0 5).allowsBlob "files"
        "images/u2/b.png" = true ∧
      ((createSASWriteString
            { accountName := "acct", accountKey := "key", containerName := "files" }
            "images/u1/a.png" "key" "acct" "files" 0 5).sas.allowsBlob "files"
          "images/u2/b.png" = true) := by
  exact ⟨rfl, rfl⟩

/-- One entry of the trace of backend calls an operation performs, in
order: `containerClient.createIfNotExists()`, the `PUT` of a payload to a
signed upload URL, a `fetch` of a remote URL, and
`blockBlobClient.delete()` on a blob path. -/
inductive IOEvent where
  | containerCreate
  | putUpload (target : BlobLocation) (contentType : String)
  | fetchUrl (url : String)
  | blobDelete (blobPath : String)
deriving Repr, DecidableEq

/-- The blob path `deleteFileFromAzureBlobPrivate` extracts from the
stored filepath: `file.filepath.split(containerName + "/")[1]`, which is
`undefined` (`none`) when the separator does not occur. -/
def extractBlobPath (containerName filepath : String) : Option String :=
  (jsSplitSecond (containerName ++ "/").data filepath.data).map fun l => ⟨l⟩

/-- The authorization error thrown when the requesting user's id does not
occur in the extracted blob path; it has no `statusCode`, so the catch
block rethrows it. -/
def userIdNotFoundError : JsError :=
  { message := "User ID not found in blob path" }

/-- The `TypeError` raised by `blobPath.includes(...)` when the split
found no container-name segment and `blobPath` is `undefined`; it has no
`statusCode`, so the catch block rethrows it. -/
def undefinedBlobPathError : JsError :=
  { message := "Cannot read properties of undefined" }

/-- `deleteFileFromAzureBlobPrivate` (crud.js lines 269-289): extract the
blob path after the container-name segment, require the requesting user's
id to occur in it, then call the delete primitive (its outcome is the
`deleteOutcome` argument); a failure whose `statusCode` is 404 is
swallowed, every other error is rethrown unchanged.  Returns the call's
result together with the trace of delete-primitive invocations. -/
def deleteFileFromAzureBlobPrivate (cfg : Config) (reqUserId filepath : String)
    (deleteOutcome : Except JsError Unit) : Except JsError Unit × List IOEvent :=
  match extractBlobPath cfg.containerName filepath with
  | none => (.error undefinedBlobPathError, [])
  | some blobPath =>
    if jsIncludes blobPath reqUserId then
      match deleteOutcome with
      | .ok _ => (.ok (), [.blobDelete blobPath])
      | .error e =>
        if e.statusCode = some 404 then (.ok (), [.blobDelete blobPath])
        else (.error e, [.blobDelete blobPath])
    else
      (.error userIdNotFoundError, [])

/-- C4: when the extracted blob path does not contain the requesting
user's id, the delete raises the authorization error and the delete
primitive is never invoked; and in general the delete primitive is
invoked only on a blob path that was extracted from the filepath and
contains the user's id. -/
theorem C4_delete_authorization (cfg : Config) (reqUserId filepath : String)
    (deleteOutcome : Except JsError Unit) (bp : String)
    (h1 : extractBlobPath cfg.containerName filepath = some bp)
    (h2 : jsIncludes bp reqUserId = false) :
    (deleteFileFromAzureBlobPrivate cfg reqUserId filepath deleteOutcome).1
        = .error userIdNotFoundError ∧
      (deleteFileFromAzureBlobPrivate cfg reqUserId filepath deleteOutcome).2 = [] ∧
      ∀ (cfg' : Config) (uid' fp' : String) (del' : Except JsError Unit) (p : String),
        IOEvent.blobDelete p ∈ (deleteFileFromAzureBlobPrivate cfg' uid' fp' del').2 →
        extractBlobPath cfg'.containerName fp' = some p ∧ jsIncludes p uid' = true := by
  refine ⟨?_, ?_, ?_⟩
  · simp [deleteFileFromAzureBlobPrivate, h1, h2]
  · simp [deleteFileFromAzureBlobPrivate, h1, h2]
  · intro cfg' uid' fp' del' p hmem
    unfold deleteFileFromAzureBlobPrivate at hmem
    cases he : extractBlobPath cfg'.containerName fp' with
    | none => rw [he] at hmem; simp at hmem
    | some bp' =>
      rw [he] at hmem
      by_cases hinc : jsIncludes bp' uid' = true
      · cases del' with
        | ok u =>
          simp [hinc] at hmem
          subst hmem
          exact ⟨rfl, hinc⟩
        | error e =>
          by_cases h404 : e.statusCode = some 404
          · simp [hinc, h404] at hmem
            subst hmem
            exact ⟨rfl, hinc⟩
          · simp [hinc, h404] at hmem
            subst hmem
            exact ⟨rfl, hinc⟩
      · simp [hinc] at hmem

theorem C4_delete_authorization_witness :
    (deleteFileFromAzureBlobPrivate
          { accountName := "acct", accountKey := "key", containerName := "files" }
          "u1" "https://acct.blob.core.windows.net/files/images/u2/a.png"
          (.ok ())).1
      = .error userIdNotFoundError :=
  (C4_delete_authorization
      { accountName := "acct", accountKey := "key", containerName := "files" }
      "u1" "https://acct.blob.core.windows.net/files/images/u2/a.png"
      (.ok ()) "images/u2/a.png" (by decide) (by decide)).1

/-- C6: when the delete primitive fails with a 404 error the operation
returns normally, and when it fails with any error whose status is not
404 that very error object is propagated unchanged. -/
theorem C6_delete_idempotent (cfg : Config) (reqUserId filepath bp : String)
    (e404 e : JsError)
    (h1 : extractBlobPath cfg.containerName filepath = some bp)
    (h2 : jsIncludes bp reqUserId = true)
    (h3 : e404.statusCode = some 404)
    (h4 : e.statusCode ≠ some 404) :
    (deleteFileFromAzureBlobPrivate cfg reqUserId filepath (.error e404)).1
        = .ok () ∧
      (deleteFileFromAzureBlobPrivate cfg reqUserId filepath (.error e)).1
        = .error e := by
  constructor
  · simp [deleteFileFromAzureBlobPrivate, h1, h2, h3]
  · simp [deleteFileFromAzureBlobPrivate, h1, h2, h4]

theorem C6_delete_idempotent_witness :
    (deleteFileFromAzureBlobPrivate
            { accountName := "acct", accountKey := "key", containerName := "files" }
            "u1" "x/files/images/u1/a.png"
            (.error { message := "NotFound", statusCode := some 404 })).1
        = .ok () ∧
      (deleteFileFromAzureBlobPrivate
            { accountName := "acct", accountKey := "key", containerName := "files" }
            "u1" "x/files/images/u1/a.png"
            (.error { message := "Boom", statusCode := some 500 })).1
        = .error { message := "Boom", statusCode := some 500 } :=
  C6_delete_idempotent
    { accountName := "acct", accountKey := "key", containerName := "files" }
    "u1" "x/files/images/u1/a.png" "images/u1/a.png"
    { message := "NotFound", statusCode := some 404 }
    { message := "Boom", statusCode := some 500 }
    (by decide) (by decide) (by decide) (by decide)

/-- `saveBufferToAzureBlobPrivate` (crud.js lines 165-203): ensure the
container exists, compute the blob path and content type
(`mime.getType(fileName)`, modelled by the `mimeType` argument), mint a
write SAS for the path, `PUT` the buffer to the signed upload URL (its
outcome is the `uploadOutcome` argument), and return a fresh signed
download URL; any error propagates. -/
def saveBufferToAzureBlobPrivate (cfg : Config) (userId : String)
    (_buffer : List Nat) (fileName : String) (mimeType : Option String)
    (now : Nat) (uploadOutcome : Except JsError Unit)
    (basePath : String := defaultBasePath)
    (containerName : String := cfg.containerName) :
    Except JsError SignedUrl × List IOEvent :=
  let blobPath := saveBlobPath basePath userId fileName
  let contentType := mimeType.getD "application/octet-stream"
  let uploadUrl :=
    createSASWriteString cfg blobPath cfg.accountKey cfg.accountName containerName now
  match uploadOutcome with
  | .error e =>
    (.error e, [.containerCreate, .putUpload uploadUrl.location contentType])
  | .ok _ =>
    (.ok (getSignedDownloadUrl cfg blobPath cfg.accountKey cfg.accountName
        containerName now),
      [.containerCreate, .putUpload uploadUrl.location contentType])

/-- `saveURLToAzureBlobPrivate` (crud.js lines 215-230): `fetch(URL)` and
read the body into a buffer (outcome `fetchOutcome`), then delegate to
`saveBufferToAzureBlobPrivate`; a fetch failure propagates from the catch
block. -/
def saveURLToAzureBlobPrivate (cfg : Config) (userId url fileName : String)
    (fetchOutcome : Except JsError (List Nat)) (mimeType : Option String)
    (now : Nat) (uploadOutcome : Except JsError Unit)
    (basePath : String := defaultBasePath)
    (containerName : String := cfg.containerName) :
    Except JsError SignedUrl × List IOEvent :=
  match fetchOutcome with
  | .error e => (.error e, [.fetchUrl url])
  | .ok buffer =>
    let r := saveBufferToAzureBlobPrivate cfg userId buffer fileName mimeType now
      uploadOutcome basePath containerName
    (r.1, .fetchUrl url :: r.2)

/-- `getAzureBlobPrivateURL` (crud.js lines 241-261): compute the blob
path (with the optional-userId branch) and return a signed download URL
for it. -/
def getAzureBlobPrivateURL (cfg : Config) (fileName : String)
    (userId : Option String) (now : Nat)
    (basePath : String := defaultBasePath)
    (containerName : String := cfg.containerName) : SignedUrl :=
  getSignedDownloadUrl cfg (resolveBlobPath basePath userId fileName)
    cfg.accountKey cfg.accountName containerName now

/-- The object returned by `uploadFileToAzureBlobPrivate`:
`{ filepath: downloadUrl, bytes }`. -/
structure UploadFileResult where
  filepath : SignedUrl
  bytes : Nat
deriving Repr, DecidableEq

/-- `uploadFileToAzureBlobPrivate` (crud.js lines 301-345): stat the local
file (the reported size is the `statSize` argument), compute the stored
file name `file_id + "__" + path.basename(file.path)` and the blob path,
ensure the container exists, mint a write SAS and `PUT` the file (outcome
`uploadOutcome`), and return the signed download URL and the byte size. -/
def uploadFileToAzureBlobPrivate (cfg : Config)
    (reqUserId filePath file_id : String) (statSize : Nat)
    (mimeType : Option String) (now : Nat)
    (uploadOutcome : Except JsError Unit)
    (basePath : String := defaultBasePath)
    (containerName : String := cfg.containerName) :
    Except JsError UploadFileResult × List IOEvent :=
  let fileName := file_id ++ "__" ++ pathBasename filePath
  let blobPath := saveBlobPath basePath reqUserId fileName
  let contentType := mimeType.getD "application/octet-stream"
  let uploadUrl :=
    createSASWriteString cfg blobPath cfg.accountKey cfg.accountName containerName now
  match uploadOutcome with
  | .error e =>
    (.error e, [.containerCreate, .putUpload uploadUrl.location contentType])
  | .ok _ =>
    (.ok
      { filepath := getSignedDownloadUrl cfg blobPath cfg.accountKey
          cfg.accountName containerName now
        bytes := statSize },
      [.containerCreate, .putUpload uploadUrl.location contentType])

namespace Identity

/-- The environment configuration of the workload-identity backend:
`AZURE_PRIVATE_STORAGE_ACCOUNT_NAME` and `AZURE_PRIVATE_CONTAINER_NAME`
(defaulting to `"files"`); there is no shared key. -/
structure IdConfig where
  accountName : String
  containerName : String := "files"
deriving Repr, DecidableEq

/-- `getAzureBlobPrivateFileStream` of the workload-identity backend
(lines 264-277 of the unnamed file): it sets
`blobName = AZURE_PRIVATE_CONTAINER_NAME` and calls
`containerClient.getBlobClient(blobName).download()`.  The model returns
the coordinates of the blob that download call addresses. -/
def getAzureBlobPrivateFileStream (cfg : IdConfig) (_fileURL : String) :
    BlobLocation :=
  { accountName := cfg.accountName
    containerName := cfg.containerName
    blobName := cfg.containerName }

end Identity

/-- C7: when the fetch of the source URL fails, `saveURLToAzureBlobPrivate`
propagates that very failure, its trace holds the fetch and no upload
(so `saveBufferToAzureBlobPrivate` was not invoked), and for every fetch
outcome the fetch is the first backend call, so it strictly precedes any
upload. -/
theorem C7_fetch_failure_no_upload (cfg : Config) (userId url fileName : String)
    (mimeType : Option String) (now : Nat) (uploadOutcome : Except JsError Unit)
    (basePath containerName : String) (e : JsError) :
    (saveURLToAzureBlobPrivate cfg userId url fileName (.error e) mimeType now
          uploadOutcome basePath containerName).1 = .error e ∧
      (saveURLToAzureBlobPrivate cfg userId url fileName (.error e) mimeType now
          uploadOutcome basePath containerName).2 = [.fetchUrl url] ∧
      ∀ fetchOutcome : Except JsError (List Nat),
        (saveURLToAzureBlobPrivate cfg userId url fileName fetchOutcome mimeType
            now uploadOutcome basePath containerName).2.head?
          = some (.fetchUrl url) := by
  refine ⟨rfl, rfl, ?_⟩
  intro fetchOutcome
  cases fetchOutcome <;> rfl

/-- C8: `uploadFileToAzureBlobPrivate` stores the file under the name
`file_id + "__" + basename(file.path)` (embedded as the last segment of
the blob path `basePath/userId/fileName`), and the returned object's
`bytes` field is the size reported by `fs.stat`. -/
theorem C8_upload_local_file (cfg : Config) (reqUserId filePath file_id : String)
    (statSize : Nat) (mimeType : Option String) (now : Nat)
    (basePath containerName : String) :
    ∃ r : UploadFileResult,
      (uploadFileToAzureBlobPrivate cfg reqUserId filePath file_id statSize
            mimeType now (.ok ()) basePath containerName).1 = .ok r ∧
        r.bytes = statSize ∧
        r.filepath.location.blobName
          = basePath ++ "/" ++ reqUserId ++ "/"
              ++ (file_id ++ "__" ++ pathBasename filePath) :=
  ⟨_, rfl, rfl, rfl⟩

/-- C9: in the workload-identity backend, `getAzureBlobPrivateFileStream`
requests the blob whose name is the configured container name, ignoring
the passed-in `fileURL`: any two different URLs lead to the very same
requested blob. -/
theorem C9_stream_ignores_fileURL (cfg : Identity.IdConfig)
    (fileURL otherURL : String) :
    Identity.getAzureBlobPrivateFileStream cfg fileURL
        = Identity.getAzureBlobPrivateFileStream cfg otherURL ∧
      (Identity.getAzureBlobPrivateFileStream cfg fileURL).blobName
        = cfg.containerName :=
  ⟨rfl, rfl⟩

/-- C10: a `containerName` override never changes the container the
operations actually address: the upload target and every returned
download URL live in the configured container (the singleton container
client), while only the SAS signature carries the override, so an
override different from the configured container makes the signature and
the URL refer to different containers. -/
theorem C10_container_override_inert (cfg : Config)
    (userId fileName filePath file_id : String) (buffer : List Nat)
    (mimeType : Option String) (statSize now : Nat)
    (basePath override : String) (userIdOpt : Option String) :
    (∀ r : SignedUrl,
        (saveBufferToAzureBlobPrivate cfg userId buffer fileName mimeType now
              (.ok ()) basePath override).1 = .ok r →
          r.location.containerName = cfg.containerName ∧
            r.sas.containerName = override) ∧
      (∀ loc ct, IOEvent.putUpload loc ct
            ∈ (saveBufferToAzureBlobPrivate cfg userId buffer fileName mimeType
                now (.ok ()) basePath override).2 →
          loc.containerName = cfg.containerName) ∧
      ((getAzureBlobPrivateURL cfg fileName userIdOpt now basePath
            override).location.containerName = cfg.containerName ∧
        (getAzureBlobPrivateURL cfg fileName userIdOpt now basePath
            override).sas.containerName = override) ∧
      (∀ r : UploadFileResult,
          (uploadFileToAzureBlobPrivate cfg userId filePath file_id statSize
                mimeType now (.ok ()) basePath override).1 = .ok r →
            r.filepath.location.containerName = cfg.containerName ∧
              r.filepath.sas.containerName = override) ∧
      (override ≠ cfg.containerName →
        (getAzureBlobPrivateURL cfg fileName userIdOpt now basePath
              override).sas.containerName
          ≠ (getAzureBlobPrivateURL cfg fileName userIdOpt now basePath
              override).location.containerName) := by
  refine ⟨?_, ?_, ⟨rfl, rfl⟩, ?_, ?_⟩
  · intro r h
    simp only [saveBufferToAzureBlobPrivate] at h
    cases h
    exact ⟨rfl, rfl⟩
  · intro loc ct hmem
    simp [saveBufferToAzureBlobPrivate] at hmem
    obtain ⟨hl, -⟩ := hmem
    subst hl
    rfl
  · intro r h
    simp only [uploadFileToAzureBlobPrivate] at h
    cases h
    exact ⟨rfl, rfl⟩
  · intro hne
    exact hne

/-- A concrete configuration used to exercise `C10_container_override_inert`. -/
def cfgW10 : Config :=
  { accountName := "acct", accountKey := "key", containerName := "files" }

theorem C10_container_override_inert_witness :
    (getSignedDownloadUrl cfgW10 "images/u1/a.png" "key" "acct" "other"
          0).location.containerName = "files" ∧
      (getSignedDownloadUrl cfgW10 "images/u1/a.png" "key" "acct" "other"
          0).sas.containerName = "other" ∧
      (getAzureBlobPrivateURL cfgW10 "a.png" (some "u1") 0 "images"
            "other").sas.containerName
        ≠ (getAzureBlobPrivateURL cfgW10 "a.png" (some "u1") 0 "images"
            "other").location.containerName := by
  obtain ⟨h1, h2, h3, h4, h5⟩ :=
    C10_container_override_inert cfgW10 "u1" "a.png" "p" "fid" [] none 0 0
      "images" "other" (some "u1")
  have hr := h1 (getSignedDownloadUrl cfgW10 "images/u1/a.png" "key" "acct"
    "other" 0) rfl
  exact ⟨hr.1.trans rfl, hr.2, h5 (by decide)⟩

end AzureBlobPrivate
